import Mathlib

/-!
Verification development for the `bgg-search` edge function of the
boardgame-stats-social repository: the external-catalog integration
(search → parse → dedupe-and-cache → respond).

Two variants of the function exist in the repository:
  * `supabase/functions/bgg-search/index.ts` — DOM-based XML extraction;
  * an unnamed variant — regex-based XML extraction (`parseSearchXML`,
    `parseDetailsXML`).

The XML payloads are modelled structurally: a document is the list of its
`<item>` elements; an item carries its attribute list (in serialized order)
and its child elements, each child carrying tag, attributes, flattened text
content, and whether it is serialized self-closing (`<tag ... />`).  The
regex extractors of the unnamed variant are modelled by their effect on
well-formed serializations of this structure (attributes appear in written
order; the matched patterns do not occur inside text nodes or attribute
values).  JS `parseInt` is modelled as an optional integer, `none` standing
for `NaN`; a JS number that may be `NaN` is modelled by `JsNum`.
-/

set_option autoImplicit false

namespace BggSearch

/-- The whitespace characters relevant to the payloads at hand (JS
whitespace restricted to ASCII). -/
def isJsSpace (c : Char) : Bool :=
  c == ' ' || c == '\t' || c == '\n' || c == '\r'

/-- JS `String.prototype.trim`: strip whitespace from both ends. -/
def trimJs (s : String) : String :=
  ⟨((s.data.dropWhile isJsSpace).reverse.dropWhile isJsSpace).reverse⟩

/-- A JS number as produced by `parseInt`: either `NaN` or an integer. -/
inductive JsNum where
  | nan
  | val (n : Int)
deriving DecidableEq

/-- Leading decimal digits of a character list; `none` when the list does
not start with a digit (JS `parseInt` yields `NaN` there). -/
def leadingDigits (l : List Char) : Option (List Char) :=
  match l.takeWhile Char.isDigit with
  | [] => none
  | ds => some ds

/-- Value of a list of decimal digit characters. -/
def digitsToNat (l : List Char) : Nat :=
  l.foldl (fun acc c => acc * 10 + (c.toNat - 48)) 0

/-- JS `parseInt(s)` (radix 10 usage as in the source): skip leading
whitespace, optional sign, then the longest prefix of decimal digits;
`none` models the `NaN` result when no digit follows. -/
def parseIntJS? (s : String) : Option Int :=
  let l := s.data.dropWhile isJsSpace
  match l with
  | '-' :: rest => (leadingDigits rest).map (fun ds => -(digitsToNat ds : Int))
  | '+' :: rest => (leadingDigits rest).map (fun ds => (digitsToNat ds : Int))
  | rest => (leadingDigits rest).map (fun ds => (digitsToNat ds : Int))

/-- JS `parseInt(s)` as a total JS number (`NaN` on failure). -/
def parseIntJs (s : String) : JsNum :=
  match parseIntJS? s with
  | none => .nan
  | some n => .val n

/-- A child element of an `<item>` fragment: tag, attributes in serialized
order, flattened text content, and whether it is serialized `<tag ... />`. -/
structure XChild where
  tag : String
  attrs : List (String × String)
  text : String
  selfClosing : Bool
deriving DecidableEq

/-- An `<item>` element of an upstream payload: its attributes in
serialized order and its child elements in document order. -/
structure XItem where
  attrs : List (String × String)
  children : List XChild
deriving DecidableEq

/-- DOM `getAttribute`: the value of the first attribute named `k`. -/
def getAttr (attrs : List (String × String)) (k : String) : Option String :=
  (attrs.find? (fun p => p.1 == k)).map (fun p => p.2)

/-- The `BoardGame` record of both variants.  Optional numeric fields hold
a `JsNum` because the regex variant can store a `NaN` in them; the DOM
variant only ever stores `JsNum.val` values (proved below). -/
structure BoardGame where
  id : Int
  name : String
  yearPublished : Option JsNum
  minPlayers : Option JsNum
  maxPlayers : Option JsNum
  playingTime : Option JsNum
  image : Option String
  description : Option String
deriving DecidableEq

/-- `item.querySelector(tag)`: first child element with the given tag. -/
def qsel (it : XItem) (tag : String) : Option XChild :=
  it.children.find? (fun c => c.tag == tag)

/-- `extractTextContent` of index.ts: `element?.textContent?.trim() || ''`. -/
def extractTextContent (e : Option XChild) : String :=
  match e with
  | none => ""
  | some c => trimJs c.text

/-- `extractNumberContent` of index.ts: `parseInt` of the text content,
`undefined` (here `none`) when the result is `NaN`. -/
def extractNumberContent (e : Option XChild) : Option Int :=
  parseIntJS? (extractTextContent e)

/-- The id guard of the index.ts detail loop:
`const id = parseInt(item.getAttribute('id') || '0'); if (!id) continue;`.
`none` when the loop skips the item (missing/empty attribute, `NaN`, or 0). -/
def domItemId (it : XItem) : Option Int :=
  let s0 := (getAttr it.attrs "id").getD "0"
  let s := if s0 == "" then "0" else s0
  match parseIntJS? s with
  | none => none
  | some n => if n == 0 then none else some n

/-- index.ts primary-name extraction:
`item.querySelector('name[type="primary"]')?.getAttribute('value') || ''`. -/
def domPrimaryName (it : XItem) : String :=
  match it.children.find? (fun c => c.tag == "name" && getAttr c.attrs "type" == some "primary") with
  | none => ""
  | some c => (getAttr c.attrs "value").getD ""

/-- JS `s || undefined`: an empty string becomes `undefined`. -/
def emptyToNone (s : String) : Option String :=
  if s == "" then none else some s

/-- Body of the index.ts detail loop for one item: skipped (`none`) when
the id guard fires or the primary name is empty, otherwise the pushed
record. -/
def domParseItem (it : XItem) : Option BoardGame :=
  match domItemId it with
  | none => none
  | some n =>
    if domPrimaryName it == "" then none
    else some {
      id := n,
      name := domPrimaryName it,
      yearPublished := (extractNumberContent (qsel it "yearpublished")).map JsNum.val,
      minPlayers := (extractNumberContent (qsel it "minplayers")).map JsNum.val,
      maxPlayers := (extractNumberContent (qsel it "maxplayers")).map JsNum.val,
      playingTime := (extractNumberContent (qsel it "playingtime")).map JsNum.val,
      image := emptyToNone (extractTextContent (qsel it "image")),
      description := emptyToNone (extractTextContent (qsel it "description")) }

/-- Selector `item[type="boardgame"]` of index.ts, and equally the
`type="boardgame"` requirement of the item regex of the unnamed variant. -/
def isBoardgameItem (it : XItem) : Bool :=
  getAttr it.attrs "type" == some "boardgame"

/-- The detail-parsing phase of index.ts `searchBGG`:
`querySelectorAll('item[type="boardgame"]')` then the per-item loop. -/
def domParseDetails (items : List XItem) : List BoardGame :=
  (items.filter isBoardgameItem).filterMap domParseItem

/-- The id attribute of a search item as read by the index.ts id loop:
`item.getAttribute('id')` followed by the truthiness test (`none` for a
missing or empty attribute). -/
def searchItemId (it : XItem) : Option String :=
  match getAttr it.attrs "id" with
  | none => none
  | some s => if s == "" then none else some s

/-- The index.ts id-collection loop over the search items:
`if (id && gameIds.length < 10) gameIds.push(parseInt(id))`. -/
def collectIds : List XItem → List JsNum → List JsNum
  | [], acc => acc
  | it :: rest, acc =>
    match searchItemId it with
    | some s =>
      if acc.length < 10 then collectIds rest (acc ++ [parseIntJs s])
      else collectIds rest acc
    | none => collectIds rest acc

/-- A nonempty all-decimal-digits string, the strings matched by the
capture of `id="(\d+)"`. -/
def allDigits (s : String) : Bool :=
  !(s == "") && s.data.all Char.isDigit

/-- First attribute named `k` whose value is a nonempty digit string,
scanning an attribute sequence in serialized order. -/
def firstDigitsAttr (pairs : List (String × String)) (k : String) : Option String :=
  (pairs.find? (fun p => p.1 == k && allDigits p.2)).map (fun p => p.2)

/-- `itemXml.match(/id="(\d+)"/)` of the unnamed variant: the first
`id="digits"` occurrence in the serialized item — the item's own
attributes first, then each child's attributes in document order. -/
def rxItemId (it : XItem) : Option String :=
  firstDigitsAttr (it.attrs ++ (it.children.map (fun c => c.attrs)).flatten) "id"

/-- The `value` attribute occurring after a `type="primary"` attribute, as
required by the attribute order of the regex
`<name[^>]*type="primary"[^>]*value="([^"]*)"[^>]*\/>`. -/
def valueAfterTypePrimary (attrs : List (String × String)) : Option String :=
  match attrs.dropWhile (fun p => !(p == ("type", "primary"))) with
  | [] => none
  | _ :: rest => getAttr rest "value"

/-- A child matching the primary-name regex of the unnamed variant:
a self-closing `<name .../>` with `type="primary"` before `value="..."`. -/
def rxPrimaryNameChild (c : XChild) : Bool :=
  c.tag == "name" && c.selfClosing && (valueAfterTypePrimary c.attrs).isSome

/-- The captured primary name of the unnamed variant's name regex. -/
def rxName (it : XItem) : Option String :=
  (it.children.find? rxPrimaryNameChild).bind (fun c => valueAfterTypePrimary c.attrs)

/-- The captured value of `<tag[^>]*value="([^"]*)"[^>]*\/>` of the
unnamed variant: first self-closing child with the tag and a `value`
attribute. -/
def rxValueOf (it : XItem) (tag : String) : Option String :=
  (it.children.find? (fun c => c.tag == tag && c.selfClosing && (getAttr c.attrs "value").isSome)).bind
    (fun c => getAttr c.attrs "value")

/-- The captured text of `<tag>(.*?)<\/tag>` of the unnamed variant: first
non-self-closing attribute-free child with the tag whose text fits on one
line (JS `.` does not match a line terminator). -/
def rxInnerText (it : XItem) (tag : String) : Option String :=
  (it.children.find? (fun c =>
    c.tag == tag && !c.selfClosing && c.attrs.isEmpty &&
      !(c.text.data.contains '\n') && !(c.text.data.contains '\r'))).map (fun c => c.text)

/-- Body of the unnamed variant's `parseDetailsXML` loop for one item:
pushed only when both the id and the primary-name regexes match.  The
`getD 0` is unreachable: the captured id is a digit string, on which
`parseIntJS?` always succeeds. -/
def rxParseItem (it : XItem) : Option BoardGame :=
  match rxItemId it, rxName it with
  | some ids, some nm =>
    some {
      id := (parseIntJS? ids).getD 0,
      name := nm,
      yearPublished := (rxValueOf it "yearpublished").map parseIntJs,
      minPlayers := (rxValueOf it "minplayers").map parseIntJs,
      maxPlayers := (rxValueOf it "maxplayers").map parseIntJs,
      playingTime := (rxValueOf it "playingtime").map parseIntJs,
      image := rxInnerText it "image",
      description := rxInnerText it "description" }
  | _, _ => none

/-- `parseDetailsXML` of the unnamed variant: items whose tag carries
`type="boardgame"`, each parsed by the field regexes. -/
def parseDetailsXML (items : List XItem) : List BoardGame :=
  (items.filter isBoardgameItem).filterMap rxParseItem

/-- One item of `parseSearchXML` of the unnamed variant: pushed only when
both the id regex `id="(\d+)"` and the name regex
`<name[^>]*value="([^"]*)"[^>]*\/>` match the item fragment, so an item
carrying an id but no self-closing name with a `value` attribute is
dropped.  The `getD 0` is unreachable: the captured id is a digit
string, on which `parseIntJS?` always succeeds. -/
def searchCandidate (it : XItem) : Option (Int × String) :=
  match rxItemId it, rxValueOf it "name" with
  | some ids, some nm => some ((parseIntJS? ids).getD 0, nm)
  | _, _ => none

/-- `parseSearchXML` of the unnamed variant over the payload's items. -/
def parseSearchXML (items : List XItem) : List (Int × String) :=
  items.filterMap searchCandidate

/-- The ids the unnamed variant forwards to the detail call:
`searchResults.slice(0, 10).map(game => game.id)`. -/
def rxForwardedIds (items : List XItem) : List Int :=
  ((parseSearchXML items).take 10).map (fun p => p.1)

/-- An upstream HTTP response: `ok` flag, status, and the `<item>`
elements of its XML body. -/
structure HttpResp where
  ok : Bool
  status : Nat
  items : List XItem
deriving DecidableEq

/-- The two upstream endpoints as the environment of one request; a
`.error` models a network-level (transport) failure of `fetch`. -/
structure Upstream where
  searchResp : Except String HttpResp
  detailsResp : Except String HttpResp

/-- The errors thrown inside `searchBGG`. -/
inductive BggError where
  | transport (msg : String)
  | searchFailed (status : Nat)
  | detailsFailed (status : Nat)
deriving DecidableEq

/-- Result of `searchBGG` together with whether the detail endpoint was
fetched. -/
structure SearchOut where
  result : Except BggError (List BoardGame)
  detailsCalled : Bool

/-- `searchBGG` of index.ts: fetch search, check status, collect at most
ten ids, return `[]` early on no ids, else fetch details, check status,
parse the detail items. -/
def searchBGG (up : Upstream) : SearchOut :=
  match up.searchResp with
  | .error msg => ⟨.error (.transport msg), false⟩
  | .ok resp =>
    if !resp.ok then ⟨.error (.searchFailed resp.status), false⟩
    else
      let gameIds := collectIds resp.items []
      if gameIds.isEmpty then ⟨.ok [], false⟩
      else
        match up.detailsResp with
        | .error msg => ⟨.error (.transport msg), true⟩
        | .ok dresp =>
          if !dresp.ok then ⟨.error (.detailsFailed dresp.status), true⟩
          else ⟨.ok (domParseDetails dresp.items), true⟩

/-- A JS value, as the `query` field of the request body; `undef` stands
for a missing field. -/
inductive JsVal where
  | undef
  | jnull
  | jbool (b : Bool)
  | jnum (n : JsNum)
  | jstr (s : String)
  | jarr
  | jobj
deriving DecidableEq

/-- JS truthiness of a `JsVal`. -/
def truthy : JsVal → Bool
  | .undef => false
  | .jnull => false
  | .jbool b => b
  | .jnum .nan => false
  | .jnum (.val n) => !(n == 0)
  | .jstr s => !(s == "")
  | .jarr => true
  | .jobj => true

/-- `typeof query === 'string'`. -/
def isString : JsVal → Bool
  | .jstr _ => true
  | _ => false

/-- An incoming request: its method and the `query` field of its body. -/
structure Req where
  method : String
  query : JsVal
deriving DecidableEq

/-- Which external calls the handler performed: whether the upstream
search fetch was issued, whether the detail fetch was issued, and which
records reached the cache-upsert phase. -/
structure ServeTrace where
  searchCalled : Bool
  detailsCalled : Bool
  storageCalls : List BoardGame
deriving DecidableEq

/-- The handler's response: CORS preflight, a 400 with an error body, the
games list (each record with `internalId`, `none` for JS `null`), or a
500 with an error body. -/
inductive HandlerResp where
  | preflight
  | badRequest (status : Nat) (errorBody : String)
  | okGames (games : List (BoardGame × Option Nat))
  | serverError (status : Nat) (errorBody : String)
deriving DecidableEq

/-- The message of each `searchBGG` error as thrown by index.ts. -/
def errMessage : BggError → String
  | .transport msg => msg
  | .searchFailed status => "BGG search failed: " ++ toString status
  | .detailsFailed status => "BGG details failed: " ++ toString status

/-- The `serve` handler of index.ts.  `resolve` is the per-record outcome
of `getOrCreateGame` against the storage collaborator (the records are
resolved concurrently via `Promise.all`, so each record's outcome is
independent; results are collected in record order). -/
def serve (req : Req) (up : Upstream) (resolve : BoardGame → Except String Nat) :
    HandlerResp × ServeTrace :=
  if req.method == "OPTIONS" then (.preflight, ⟨false, false, []⟩)
  else if !(truthy req.query) || !(isString req.query) then
    (.badRequest 400 "Query parameter is required and must be a string", ⟨false, false, []⟩)
  else
    let out := searchBGG up
    match out.result with
    | .error e => (.serverError 500 (errMessage e), ⟨true, out.detailsCalled, []⟩)
    | .ok games =>
      (.okGames (games.map (fun g => (g, (resolve g).toOption))), ⟨true, out.detailsCalled, games⟩)

/-- A row of the `games` table (migration
20250805093537: `id` store-generated, `bgg_id INTEGER UNIQUE NOT NULL`). -/
structure GameRow where
  id : Nat
  bgg_id : Int
  name : String
  year_published : Option JsNum
  min_players : Option JsNum
  max_players : Option JsNum
  playing_time : Option JsNum
  image_url : Option String
  description : Option String
deriving DecidableEq

/-- The `games` table with its id generator. -/
structure GamesStore where
  rows : List GameRow
  nextId : Nat
deriving DecidableEq

/-- The rows holding a given `bgg_id`. -/
def rowsFor (st : GamesStore) (bggId : Int) : List GameRow :=
  st.rows.filter (fun r => r.bgg_id == bggId)

/-- `select('id').eq('bgg_id', ...).single()` as read by `getOrCreateGame`:
`.single()` yields the row when exactly one matches, and error `PGRST116`
(which the code treats as not-found) otherwise. -/
def selectGameByBggId (st : GamesStore) (bggId : Int) : Option GameRow :=
  match rowsFor st bggId with
  | [r] => some r
  | _ => none

/-- The row inserted by `getOrCreateGame` for a record. -/
def mkGameRow (localId : Nat) (g : BoardGame) : GameRow :=
  { id := localId, bgg_id := g.id, name := g.name,
    year_published := g.yearPublished, min_players := g.minPlayers,
    max_players := g.maxPlayers, playing_time := g.playingTime,
    image_url := g.image, description := g.description }

/-- `insert(...).select('id').single()`: fails when the store-level unique
constraint on `bgg_id` is violated, else appends the new row and returns
its generated id. -/
def insertGame (st : GamesStore) (g : BoardGame) : Except String (Nat × GamesStore) :=
  if st.rows.any (fun r => r.bgg_id == g.id) then
    .error "duplicate key value violates unique constraint"
  else
    .ok (st.nextId, ⟨st.rows ++ [mkGameRow st.nextId g], st.nextId + 1⟩)

/-- `getOrCreateGame` of both variants: look up by `bgg_id`; if found
return the existing id with the store untouched, else insert. -/
def getOrCreateGame (st : GamesStore) (g : BoardGame) : Except String (Nat × GamesStore) :=
  match selectGameByBggId st g.id with
  | some r => .ok (r.id, st)
  | none => insertGame st g

/-- A child carrying its datum in a `value` attribute with no text, the
shape of the upstream's numeric detail elements (for example
`<yearpublished value="1995"/>`). -/
def numChild (tag v : String) : XChild :=
  ⟨tag, [("value", v)], "", true⟩

/-- A detail item in the upstream's value-attributed shape: type and id on
the item tag, a self-closing primary name, and the four numeric elements
carrying their data in `value` attributes. -/
def mkValueItem (ids nm yr mn mx pt : String) : XItem :=
  { attrs := [("type", "boardgame"), ("id", ids)],
    children := [
      ⟨"name", [("type", "primary"), ("value", nm)], "", true⟩,
      numChild "yearpublished" yr,
      numChild "minplayers" mn,
      numChild "maxplayers" mx,
      numChild "playingtime" pt ] }

/-- Concrete detail item: Catan in the upstream's value-attributed shape. -/
def itemCatanW : XItem := mkValueItem "13" "Catan" "1995" "3" "4" "120"

/-- Concrete second detail item, used to observe unaffected records. -/
def itemOtherW : XItem := mkValueItem "9" "Other" "2000" "2" "5" "60"

/-- Concrete search item carrying id 13. -/
def searchItemW : XItem := ⟨[("id", "13")], []⟩

/-- Concrete upstream where both calls succeed. -/
def upW : Upstream :=
  ⟨.ok ⟨true, 200, [searchItemW]⟩, .ok ⟨true, 200, [itemCatanW, itemOtherW]⟩⟩

/-- Concrete upstream whose search succeeds with zero items. -/
def upEmptyW : Upstream := ⟨.ok ⟨true, 200, []⟩, .error "unreachable"⟩

/-- Concrete upstream whose search returns a non-success status. -/
def upFailW : Upstream := ⟨.ok ⟨false, 503, []⟩, .error "unreachable"⟩

/-- Concrete per-record resolution outcome: storage fails for upstream id
13 and succeeds with local id 42 otherwise. -/
def resolveW : BoardGame → Except String Nat :=
  fun g => if g.id == 13 then .error "db down" else .ok 42

/-- The records parsed from the concrete detail payload. -/
def gamesW : List BoardGame := domParseDetails [itemCatanW, itemOtherW]

/-- The record the DOM parser produces for `itemCatanW`. -/
def recCatanW : BoardGame := ⟨13, "Catan", none, none, none, none, none, none⟩

/-- A search item carrying an id and a self-closing name element. -/
def namedSearchItem (ids : String) : XItem :=
  ⟨[("id", ids)], [⟨"name", [("value", "G")], "", true⟩]⟩

/-- Search payload with eleven id-carrying items, the first of which has
no name element. -/
def cexSearchPayload : List XItem :=
  [⟨[("id", "1")], []⟩,
   namedSearchItem "2", namedSearchItem "3", namedSearchItem "4", namedSearchItem "5",
   namedSearchItem "6", namedSearchItem "7", namedSearchItem "8", namedSearchItem "9",
   namedSearchItem "10", namedSearchItem "11"]

/-- Concrete empty games store. -/
def stW : GamesStore := ⟨[], 0⟩

/-- Concrete store already holding a row for upstream id 13. -/
def stOneW : GamesStore := ⟨[mkGameRow 5 recCatanW], 6⟩

/-! ## Theorems -/

/-- The id-collection loop of `searchBGG` extends its accumulator with the
`parseInt` of the ids of the first `10 - acc.length` id-carrying items. -/
theorem collectIds_spec (items : List XItem) :
    ∀ acc : List JsNum,
      collectIds items acc =
        acc ++ ((items.filterMap searchItemId).take (10 - acc.length)).map parseIntJs := by
  induction items with
  | nil => intro acc; simp [collectIds]
  | cons it rest ih =>
    intro acc
    cases h : searchItemId it with
    | none => simp [collectIds, h, ih, List.filterMap_cons]
    | some s =>
      by_cases hlen : acc.length < 10
      · obtain ⟨k, hk⟩ : ∃ k, 10 - acc.length = k + 1 := ⟨10 - acc.length - 1, by omega⟩
        have hk2 : 10 - (acc ++ [parseIntJs s]).length = k := by
          simp only [List.length_append, List.length_cons, List.length_nil]
          omega
        simp [collectIds, h, hlen, ih, List.filterMap_cons, hk, hk2, List.take_succ_cons]
        omega
      · have h0 : 10 - acc.length = 0 := by omega
        simp [collectIds, h, hlen, ih, List.filterMap_cons, h0]

/-- C3 fails on the unnamed variant: in a payload of eleven id-carrying
items whose first has no name element, the first 10 items carrying an id
have ids 1 through 10, but `parseSearchXML` drops the name-less item, so
the variant forwards ids 2 through 11 — not the first 10 among the items
that carry an id. -/
theorem searchForwarding_counterexample :
    (cexSearchPayload.filterMap searchItemId).take 10
      = ["1", "2", "3", "4", "5", "6", "7", "8", "9", "10"] ∧
    rxForwardedIds cexSearchPayload = [2, 3, 4, 5, 6, 7, 8, 9, 10, 11] ∧
    rxForwardedIds cexSearchPayload ≠
      ((cexSearchPayload.filterMap searchItemId).take 10).map
        (fun s => (parseIntJS? s).getD 0) := by
  decide

/-- C3 (amended): both variants forward at most 10 ids to the detail call,
in upstream-returned order; the index.ts loop forwards the `parseInt`
images of the ids of the first 10 search items that carry an id, while the
unnamed variant's `parseSearchXML` forwards the ids of the first 10 items
that carry both an id and a self-closing name value. -/
theorem forwardedIds_per_variant (items : List XItem) :
    collectIds items [] = ((items.filterMap searchItemId).take 10).map parseIntJs ∧
    (collectIds items []).length ≤ 10 ∧
    rxForwardedIds items
      = ((items.filterMap searchCandidate).map (fun p => p.1)).take 10 ∧
    (rxForwardedIds items).length ≤ 10 := by
  have h := collectIds_spec items []
  simp only [List.nil_append, List.length_nil, Nat.sub_zero] at h
  refine ⟨h, ?_, ?_, ?_⟩
  · rw [h]
    simp only [List.length_map, List.length_take]
    omega
  · simp [rxForwardedIds, parseSearchXML, List.map_take]
  · simp only [rxForwardedIds, List.length_map, List.length_take]
    omega

/-- C7: a request (other than the CORS preflight) whose `query` field is
missing, the empty string, or not a string is rejected with the 400
client-error body before any upstream or storage call. -/
theorem invalidQuery_rejected (req : Req) (up : Upstream)
    (resolve : BoardGame → Except String Nat)
    (hm : req.method ≠ "OPTIONS")
    (hq : req.query = .undef ∨ req.query = .jstr "" ∨ isString req.query = false) :
    serve req up resolve =
      (.badRequest 400 "Query parameter is required and must be a string",
       ⟨false, false, []⟩) := by
  have hm' : (req.method == "OPTIONS") = false := beq_eq_false_iff_ne.mpr hm
  have hcond : (!(truthy req.query) || !(isString req.query)) = true := by
    rcases hq with h | h | h
    · simp [h, truthy]
    · simp [h, truthy]
    · simp [h]
  simp [serve, hm', hcond]

/-- C6: if the upstream search response succeeds but contains zero items
carrying an id, `searchBGG` returns the empty list (not an error) without
calling the detail endpoint, and the handler responds with the empty games
list having touched storage for no record. -/
theorem emptySearch_noDetailCall (req : Req) (up : Upstream)
    (resolve : BoardGame → Except String Nat) (resp : HttpResp) (s : String)
    (hm : req.method ≠ "OPTIONS") (hq : req.query = .jstr s) (hs0 : s ≠ "")
    (hsr : up.searchResp = .ok resp) (hok : resp.ok = true)
    (hids : resp.items.filterMap searchItemId = []) :
    searchBGG up = ⟨.ok [], false⟩ ∧
    serve req up resolve = (.okGames [], ⟨true, false, []⟩) := by
  have hcoll : collectIds resp.items [] = [] := by
    have h := collectIds_spec resp.items []
    simp [hids] at h
    exact h
  have hsb : searchBGG up = ⟨.ok [], false⟩ := by
    simp [searchBGG, hsr, hok, hcoll]
  refine ⟨hsb, ?_⟩
  have hm' : (req.method == "OPTIONS") = false := beq_eq_false_iff_ne.mpr hm
  have hs' : (s == "") = false := beq_eq_false_iff_ne.mpr hs0
  have hq' : (!(truthy req.query) || !(isString req.query)) = false := by
    simp [hq, truthy, isString, hs']
  simp [serve, hm', hq', hsb]

/-- C8: a non-success HTTP status from either upstream call (search, or
detail when it is reached) aborts the whole request: the handler returns a
single 500 error response, no partial games list exists, and no record
reaches the cache-upsert phase. -/
theorem upstreamFailure_aborts (req : Req) (up : Upstream)
    (resolve : BoardGame → Except String Nat) (s : String)
    (hm : req.method ≠ "OPTIONS") (hq : req.query = .jstr s) (hs0 : s ≠ "")
    (hfail :
      (∃ resp, up.searchResp = .ok resp ∧ resp.ok = false) ∨
      (∃ resp dresp, up.searchResp = .ok resp ∧ resp.ok = true ∧
        collectIds resp.items [] ≠ [] ∧ up.detailsResp = .ok dresp ∧ dresp.ok = false)) :
    ∃ msg d, serve req up resolve = (.serverError 500 msg, ⟨true, d, []⟩) := by
  have hm' : (req.method == "OPTIONS") = false := beq_eq_false_iff_ne.mpr hm
  have hs' : (s == "") = false := beq_eq_false_iff_ne.mpr hs0
  have hq' : (!(truthy req.query) || !(isString req.query)) = false := by
    simp [hq, truthy, isString, hs']
  rcases hfail with ⟨resp, hsr, hrok⟩ | ⟨resp, dresp, hsr, hrok, hne, hdr, hdok⟩
  · refine ⟨errMessage (.searchFailed resp.status), false, ?_⟩
    simp [serve, hm', hq', searchBGG, hsr, hrok, errMessage]
  · refine ⟨errMessage (.detailsFailed dresp.status), true, ?_⟩
    cases hcl : collectIds resp.items [] with
    | nil => exact absurd hcl hne
    | cons a l =>
      simp [serve, hm', hq', searchBGG, hsr, hrok, hcl, hdr, hdok, errMessage]

/-- C1: when the query is valid and parsing of the upstream responses
succeeds, a `StorageError` of the per-record cache-resolution step for one
record does not abort the batch nor make the handler fail: the response is
the full record list in order, each record paired with its own resolution
outcome, and the failing record is present with its local identifier
`none` (JS `null`). -/
theorem storageFault_isolated (req : Req) (up : Upstream)
    (resolve : BoardGame → Except String Nat) (games : List BoardGame)
    (g : BoardGame) (e : String) (s : String)
    (hm : req.method ≠ "OPTIONS") (hq : req.query = .jstr s) (hs0 : s ≠ "")
    (hsb : (searchBGG up).result = .ok games)
    (hg : g ∈ games) (hf : resolve g = .error e) :
    serve req up resolve =
      (.okGames (games.map (fun x => (x, (resolve x).toOption))),
       ⟨true, (searchBGG up).detailsCalled, games⟩) ∧
    (g, (none : Option Nat)) ∈ games.map (fun x => (x, (resolve x).toOption)) := by
  have hm' : (req.method == "OPTIONS") = false := beq_eq_false_iff_ne.mpr hm
  have hs' : (s == "") = false := beq_eq_false_iff_ne.mpr hs0
  have hq' : (!(truthy req.query) || !(isString req.query)) = false := by
    simp [hq, truthy, isString, hs']
  constructor
  · simp [serve, hm', hq', hsb]
  · exact List.mem_map.mpr ⟨g, hg, by simp [hf, Except.toOption]⟩

/-- C2: under the store invariant granted by the unique constraint on
`bgg_id` (at most one row per upstream id), calling `getOrCreateGame`
twice in sequence with the same record succeeds both times, returns the
same local identifier both times, and leaves exactly one stored row for
that upstream id. -/
theorem resolve_idempotent (st : GamesStore) (g : BoardGame)
    (hinv : (rowsFor st g.id).length ≤ 1) :
    ∃ i st1, getOrCreateGame st g = .ok (i, st1) ∧
      getOrCreateGame st1 g = .ok (i, st1) ∧
      (rowsFor st1 g.id).length = 1 := by
  cases hrows : rowsFor st g.id with
  | nil =>
    have hany : (st.rows.any (fun r => r.bgg_id == g.id)) = false := by
      rw [List.any_eq_false]
      intro r hr hbeq
      have hmem : r ∈ rowsFor st g.id := List.mem_filter.mpr ⟨hr, hbeq⟩
      rw [hrows] at hmem
      exact absurd hmem (List.not_mem_nil r)
    have hrows' : st.rows.filter (fun r => r.bgg_id == g.id) = [] := hrows
    have hrows1 : rowsFor ⟨st.rows ++ [mkGameRow st.nextId g], st.nextId + 1⟩ g.id
        = [mkGameRow st.nextId g] := by
      simp [rowsFor, List.filter_append, hrows', mkGameRow]
    refine ⟨st.nextId, ⟨st.rows ++ [mkGameRow st.nextId g], st.nextId + 1⟩, ?_, ?_, ?_⟩
    · simp [getOrCreateGame, selectGameByBggId, hrows, insertGame, hany]
    · unfold getOrCreateGame selectGameByBggId
      rw [hrows1]
      simp [mkGameRow]
    · rw [hrows1]
      rfl
  | cons r tl =>
    have htl : tl = [] := by
      rw [hrows] at hinv
      simp at hinv
      exact hinv
    subst htl
    exact ⟨r.id, st, by simp [getOrCreateGame, selectGameByBggId, hrows],
      by simp [getOrCreateGame, selectGameByBggId, hrows], by rw [hrows]; rfl⟩

/-- C9: `getOrCreateGame` never updates or deletes a persisted row: when a
row for the record's upstream id exists it returns that row's local
identifier with the store entirely unchanged, and in every successful run
the store either stays unchanged or grows by exactly one appended row for
a `bgg_id` that no existing row carried. -/
theorem resolve_firstWriteWins (st : GamesStore) (g : BoardGame) :
    (∀ r, rowsFor st g.id = [r] → getOrCreateGame st g = .ok (r.id, st)) ∧
    (∀ i st', getOrCreateGame st g = .ok (i, st') →
      st' = st ∨
      (st'.rows = st.rows ++ [mkGameRow st.nextId g] ∧
        ∀ r ∈ st.rows, (r.bgg_id == g.id) = false)) := by
  constructor
  · intro r hr
    simp [getOrCreateGame, selectGameByBggId, hr]
  · intro i st' hok
    unfold getOrCreateGame at hok
    cases hsel : selectGameByBggId st g.id with
    | some r =>
      rw [hsel] at hok
      simp at hok
      left
      exact hok.2.symm
    | none =>
      rw [hsel] at hok
      unfold insertGame at hok
      by_cases hany : (st.rows.any (fun r => r.bgg_id == g.id)) = true
      · rw [if_pos hany] at hok
        exact absurd hok (by simp)
      · right
        rw [if_neg hany] at hok
        simp at hok
        refine ⟨by rw [← hok.2], ?_⟩
        intro r hr
        have hfalse : (st.rows.any fun r => r.bgg_id == g.id) = false :=
          Bool.eq_false_iff.mpr hany
        have h := List.any_eq_false.mp hfalse r hr
        simpa using h

/-- C5: both detail parsers restrict extraction to items typed
`boardgame`: each parse equals the parse of the payload restricted to its
`boardgame`-typed items, and a payload of only differently-typed items
(expansions, accessories) parses to the empty list. -/
theorem detailParse_boardgame_only (items : List XItem) :
    domParseDetails items = domParseDetails (items.filter isBoardgameItem) ∧
    parseDetailsXML items = parseDetailsXML (items.filter isBoardgameItem) ∧
    domParseDetails (items.filter (fun it => !(isBoardgameItem it))) = [] ∧
    parseDetailsXML (items.filter (fun it => !(isBoardgameItem it))) = [] := by
  refine ⟨?_, ?_, ?_, ?_⟩ <;>
    simp [domParseDetails, parseDetailsXML, List.filter_filter]

/-- C4 fails on the regex variant: a detail item carrying the unparsable
text "abc" in its `yearpublished` value attribute yields a record whose
`yearPublished` holds the `NaN` artifact instead of being absent. -/
theorem nanArtifact_counterexample :
    parseIntJS? "abc" = none ∧
    (parseDetailsXML [⟨[("type", "boardgame"), ("id", "7")],
        [⟨"name", [("type", "primary"), ("value", "Bad")], "", true⟩,
         numChild "yearpublished" "abc"]⟩]).map (fun g => g.yearPublished)
      = [some JsNum.nan] := by
  exact ⟨rfl, by decide⟩

/-- C4 (amended): for the DOM-based extraction of index.ts the claim
holds — a numeric field whose source text fails to parse as an integer, or
whose element is missing, is absent in the record, never zero and never a
`NaN` artifact, and no record built by the index.ts detail loop carries a
`NaN` in a numeric field; the regex-based `parseDetailsXML` guarantees
absence only when the element is missing. -/
theorem extractNumber_absent_on_failedParse :
    (∀ e : Option XChild, parseIntJS? (extractTextContent e) = none →
      extractNumberContent e = none) ∧
    extractNumberContent none = none ∧
    (∀ it g, domParseItem it = some g →
      g.yearPublished ≠ some JsNum.nan ∧ g.minPlayers ≠ some JsNum.nan ∧
      g.maxPlayers ≠ some JsNum.nan ∧ g.playingTime ≠ some JsNum.nan) ∧
    (∀ it g, domParseItem it = some g → qsel it "yearpublished" = none →
      g.yearPublished = none) ∧
    (∀ it g, rxParseItem it = some g → rxValueOf it "yearpublished" = none →
      g.yearPublished = none) := by
  have hdom : ∀ it g, domParseItem it = some g →
      g.yearPublished = (extractNumberContent (qsel it "yearpublished")).map JsNum.val ∧
      g.minPlayers = (extractNumberContent (qsel it "minplayers")).map JsNum.val ∧
      g.maxPlayers = (extractNumberContent (qsel it "maxplayers")).map JsNum.val ∧
      g.playingTime = (extractNumberContent (qsel it "playingtime")).map JsNum.val := by
    intro it g hg
    unfold domParseItem at hg
    split at hg
    · exact absurd hg (by simp)
    · split at hg
      · exact absurd hg (by simp)
      · rw [← Option.some.inj hg]
        exact ⟨rfl, rfl, rfl, rfl⟩
  refine ⟨?_, rfl, ?_, ?_, ?_⟩
  · intro e h
    exact h
  · intro it g hg
    obtain ⟨h1, h2, h3, h4⟩ := hdom it g hg
    rw [h1, h2, h3, h4]
    refine ⟨?_, ?_, ?_, ?_⟩ <;>
      · cases h : extractNumberContent (qsel it _) <;> simp [h]
  · intro it g hg hq
    rw [(hdom it g hg).1, hq]
    rfl
  · intro it g hg hv
    unfold rxParseItem at hg
    split at hg
    · rw [← Option.some.inj hg]
      simp [hv]
    · exact absurd hg (by simp)

/-- C10 fails: on a detail item in the upstream's value-attributed shape
the two parsers disagree — the DOM extraction reads numeric fields from
element text content (empty here) while `parseDetailsXML` reads the
`value` attributes. -/
theorem parsers_differ_counterexample :
    domParseDetails [mkValueItem "13" "Catan" "1995" "3" "4" "120"] ≠
      parseDetailsXML [mkValueItem "13" "Catan" "1995" "3" "4" "120"] := by
  decide

/-- C10 (amended): the two detail parsers do not produce the same records;
on every item in the upstream's value-attributed shape both accept the
item and agree on the upstream id and the primary name, but the DOM-based
extraction yields every numeric field absent while `parseDetailsXML`
yields the integers parsed from the `value` attributes. -/
theorem parsers_agree_on_id_and_name (ids nm yr mn mx pt : String) (n : Int)
    (hdig : allDigits ids = true) (hp : parseIntJS? ids = some n)
    (hn : (n == 0) = false) (hnm : (nm == "") = false) :
    domParseDetails [mkValueItem ids nm yr mn mx pt] =
      [{ id := n, name := nm, yearPublished := none, minPlayers := none,
         maxPlayers := none, playingTime := none, image := none, description := none }] ∧
    parseDetailsXML [mkValueItem ids nm yr mn mx pt] =
      [{ id := n, name := nm,
         yearPublished := some (parseIntJs yr), minPlayers := some (parseIntJs mn),
         maxPlayers := some (parseIntJs mx), playingTime := some (parseIntJs pt),
         image := none, description := none }] := by
  have hne : (ids == "") = false := by
    simp only [allDigits, Bool.and_eq_true, Bool.not_eq_true'] at hdig
    exact hdig.1
  have hbg : isBoardgameItem (mkValueItem ids nm yr mn mx pt) = true := by
    simp [isBoardgameItem, mkValueItem, getAttr, List.find?]
  have hfilter : List.filter isBoardgameItem [mkValueItem ids nm yr mn mx pt]
      = [mkValueItem ids nm yr mn mx pt] := by
    simp [List.filter, hbg]
  constructor
  · have hid : domItemId (mkValueItem ids nm yr mn mx pt) = some n := by
      simp [domItemId, mkValueItem, getAttr, List.find?, hne, hp, hn]
    have hpn : domPrimaryName (mkValueItem ids nm yr mn mx pt) = nm := by
      simp [domPrimaryName, mkValueItem, getAttr, List.find?, numChild]
    have hq1 : qsel (mkValueItem ids nm yr mn mx pt) "yearpublished"
        = some (numChild "yearpublished" yr) := by
      simp [qsel, mkValueItem, List.find?, numChild]
    have hq2 : qsel (mkValueItem ids nm yr mn mx pt) "minplayers"
        = some (numChild "minplayers" mn) := by
      simp [qsel, mkValueItem, List.find?, numChild]
    have hq3 : qsel (mkValueItem ids nm yr mn mx pt) "maxplayers"
        = some (numChild "maxplayers" mx) := by
      simp [qsel, mkValueItem, List.find?, numChild]
    have hq4 : qsel (mkValueItem ids nm yr mn mx pt) "playingtime"
        = some (numChild "playingtime" pt) := by
      simp [qsel, mkValueItem, List.find?, numChild]
    have hq5 : qsel (mkValueItem ids nm yr mn mx pt) "image" = none := by
      simp [qsel, mkValueItem, List.find?, numChild]
    have hq6 : qsel (mkValueItem ids nm yr mn mx pt) "description" = none := by
      simp [qsel, mkValueItem, List.find?, numChild]
    have hnum : ∀ t v, extractNumberContent (some (numChild t v)) = none := by
      intro t v
      rfl
    unfold domParseDetails
    rw [hfilter]
    simp [List.filterMap, domParseItem, hid, hpn, hnm, hq1, hq2, hq3, hq4, hq5, hq6,
      hnum, extractTextContent, emptyToNone]
  · have hrid : rxItemId (mkValueItem ids nm yr mn mx pt) = some ids := by
      simp [rxItemId, mkValueItem, firstDigitsAttr, List.find?, numChild, hdig]
    have hrnm : rxName (mkValueItem ids nm yr mn mx pt) = some nm := by
      simp [rxName, mkValueItem, rxPrimaryNameChild, List.find?, numChild,
        valueAfterTypePrimary, List.dropWhile, getAttr]
    have hv1 : rxValueOf (mkValueItem ids nm yr mn mx pt) "yearpublished" = some yr := by
      simp [rxValueOf, mkValueItem, List.find?, numChild, getAttr]
    have hv2 : rxValueOf (mkValueItem ids nm yr mn mx pt) "minplayers" = some mn := by
      simp [rxValueOf, mkValueItem, List.find?, numChild, getAttr]
    have hv3 : rxValueOf (mkValueItem ids nm yr mn mx pt) "maxplayers" = some mx := by
      simp [rxValueOf, mkValueItem, List.find?, numChild, getAttr]
    have hv4 : rxValueOf (mkValueItem ids nm yr mn mx pt) "playingtime" = some pt := by
      simp [rxValueOf, mkValueItem, List.find?, numChild, getAttr]
    have hri1 : rxInnerText (mkValueItem ids nm yr mn mx pt) "image" = none := by
      simp [rxInnerText, mkValueItem, List.find?, numChild]
    have hri2 : rxInnerText (mkValueItem ids nm yr mn mx pt) "description" = none := by
      simp [rxInnerText, mkValueItem, List.find?, numChild]
    unfold parseDetailsXML
    rw [hfilter]
    simp [List.filterMap, rxParseItem, hrid, hrnm, hp, hv1, hv2, hv3, hv4, hri1, hri2]

/-- Witness for C1 at the concrete scenario: storage fails for Catan only;
the response still lists both records, Catan with a null local id. -/
theorem storageFault_isolated_witness :
    serve ⟨"POST", .jstr "catan"⟩ upW resolveW =
      (.okGames (gamesW.map (fun x => (x, (resolveW x).toOption))),
       ⟨true, (searchBGG upW).detailsCalled, gamesW⟩) ∧
    (recCatanW, (none : Option Nat)) ∈ gamesW.map (fun x => (x, (resolveW x).toOption)) :=
  storageFault_isolated ⟨"POST", .jstr "catan"⟩ upW resolveW gamesW recCatanW "db down"
    "catan" (by decide) rfl (by decide) rfl (by decide) rfl

/-- Witness for C2 at the empty store. -/
theorem resolve_idempotent_witness :
    ∃ i st1, getOrCreateGame stW recCatanW = .ok (i, st1) ∧
      getOrCreateGame st1 recCatanW = .ok (i, st1) ∧
      (rowsFor st1 recCatanW.id).length = 1 :=
  resolve_idempotent stW recCatanW (by decide)

/-- Witness for C6 at a concrete empty search payload. -/
theorem emptySearch_noDetailCall_witness :
    searchBGG upEmptyW = ⟨.ok [], false⟩ ∧
    serve ⟨"POST", .jstr "x"⟩ upEmptyW resolveW = (.okGames [], ⟨true, false, []⟩) :=
  emptySearch_noDetailCall ⟨"POST", .jstr "x"⟩ upEmptyW resolveW ⟨true, 200, []⟩ "x"
    (by decide) rfl (by decide) rfl rfl rfl

/-- Witness for C7 at a request with a missing query field. -/
theorem invalidQuery_rejected_witness :
    serve ⟨"POST", .undef⟩ upW resolveW =
      (.badRequest 400 "Query parameter is required and must be a string",
       ⟨false, false, []⟩) :=
  invalidQuery_rejected ⟨"POST", .undef⟩ upW resolveW (by decide) (Or.inl rfl)

/-- Witness for C8 at a concrete 503 search response. -/
theorem upstreamFailure_aborts_witness :
    ∃ msg d, serve ⟨"POST", .jstr "x"⟩ upFailW resolveW
      = (.serverError 500 msg, ⟨true, d, []⟩) :=
  upstreamFailure_aborts ⟨"POST", .jstr "x"⟩ upFailW resolveW "x" (by decide) rfl
    (by decide) (Or.inl ⟨⟨false, 503, []⟩, rfl, rfl⟩)

/-- Witness for C9 at a store already holding the row with local id 5. -/
theorem resolve_firstWriteWins_witness :
    getOrCreateGame stOneW recCatanW = .ok (5, stOneW) :=
  (resolve_firstWriteWins stOneW recCatanW).1 (mkGameRow 5 recCatanW) rfl

/-- Witness for the amended C4 at a concrete parse failure. -/
theorem extractNumber_absent_on_failedParse_witness :
    extractNumberContent (some (numChild "yearpublished" "1995")) = none :=
  extractNumber_absent_on_failedParse.1 (some (numChild "yearpublished" "1995")) (by decide)

/-- Witness for the amended C10 at the concrete Catan item. -/
theorem parsers_agree_on_id_and_name_witness :
    domParseDetails [mkValueItem "13" "Catan" "1995" "3" "4" "120"] =
      [{ id := 13, name := "Catan", yearPublished := none, minPlayers := none,
         maxPlayers := none, playingTime := none, image := none, description := none }] ∧
    parseDetailsXML [mkValueItem "13" "Catan" "1995" "3" "4" "120"] =
      [{ id := 13, name := "Catan",
         yearPublished := some (parseIntJs "1995"), minPlayers := some (parseIntJs "3"),
         maxPlayers := some (parseIntJs "4"), playingTime := some (parseIntJs "120"),
         image := none, description := none }] :=
  parsers_agree_on_id_and_name "13" "Catan" "1995" "3" "4" "120" 13 (by decide) (by decide)
    (by decide) (by decide)

end BggSearch
